import Mathlib

/-!
Shallow embedding of the compute-operator RegisteredCluster reconciliation
controller (controllers/cluster-registration/cluster_registration_controller.go
and pkg/helpers), together with theorems checking the natural-language
specification against it.

External Kubernetes API calls are modelled by injecting their results
(an `Except K8sErr _` per call site) into each function; the functions
reproduce the control flow of the source over those results and additionally
record the mutating requests ("actions") they issue.
-/

/-- Result of a Kubernetes API call that failed: either the api-machinery
NotFound error (`k8serrors.IsNotFound` returns true, also through the
`giterrors.WithStack` wrapper, which unwraps) or any other error carrying a
message (including errors built with `fmt.Errorf`). -/
inductive K8sErr where
  | notFound : K8sErr
  | other : String → K8sErr
deriving DecidableEq

/-- Model of `k8serrors.IsNotFound`. -/
def isNotFoundErr : K8sErr → Bool
  | K8sErr.notFound => true
  | K8sErr.other _ => false

/-- Model of `ctrl.Result`: the requeue flag and the `RequeueAfter` delay in
seconds. -/
structure CtrlResult where
  requeue : Bool
  requeueAfterSec : Nat
deriving DecidableEq

/-- The zero `ctrl.Result{}` value. -/
def noRequeue : CtrlResult := ⟨false, 0⟩

/-- Label key constant `RegisteredClusterNamelabel` from the controller. -/
def RegisteredClusterNamelabel : String :=
  "registeredcluster.singapore.open-cluster-management.io/name"

/-- Label key constant `RegisteredClusterNamespacelabel` from the controller. -/
def RegisteredClusterNamespacelabel : String :=
  "registeredcluster.singapore.open-cluster-management.io/namespace"

/-- Label key constant `RegisteredClusterUidLabel` from the controller. -/
def RegisteredClusterUidLabel : String :=
  "registeredcluster.singapore.open-cluster-management.io/uid"

/-- Annotation key constant `ClusterNameAnnotation` from the controller
(key string `registeredcluster.singapore.open-cluster-management.io/clustername`). -/
def ClusterNameAnnotationKey : String :=
  "registeredcluster.singapore.open-cluster-management.io/clustername"

/-- Label key constant `ManagedClusterSetlabel` from the controller. -/
def ManagedClusterSetlabel : String :=
  "cluster.open-cluster-management.io/clusterset"

/-- Condition type `clusterapiv1.ManagedClusterConditionJoined` from the
open-cluster-management API. -/
def ManagedClusterConditionJoined : String := "ManagedClusterJoined"

/-- Condition status `metav1.ConditionTrue`. -/
def ConditionTrue : String := "True"

/-- Modelled from the spec: the finalizer identifier
`helpers.RegisteredClusterFinalizer` (pkg/helpers is not among the provided
sources; only its identity matters to the claims). -/
def RegisteredClusterFinalizer : String :=
  "singapore.open-cluster-management.io/registeredcluster-finalizer"

/-- Helper `ManagedClusterSetNameForWorkspace` (pkg/helpers): workspaces are
uniquely identified by their name, so this is the identity. -/
def ManagedClusterSetNameForWorkspace (workspaceName : String) : String :=
  workspaceName

/-- Helper `GetSyncerName` (pkg/helpers): `fmt.Sprintf("%s-%s", GetSyncerPrefix(), name)`
with the fixed first component `kcp-syncer`. -/
def GetSyncerName (regClusterName : String) : String :=
  "kcp-syncer-" ++ regClusterName

/-- Helper `GetSyncerServiceAccountName` (pkg/helpers): the fixed name
`kcp-syncer-sa`. -/
def GetSyncerServiceAccountName : String := "kcp-syncer-sa"

/-- A `metav1.Condition` restricted to the fields the controller inspects. -/
structure Condition where
  type_ : String
  status : String
  reason : String
  message : String
deriving DecidableEq

/-- Go map lookup on a label/annotation set modelled as an association list
(Go maps have unique keys; construction order makes the first match the value). -/
def lookupStr : List (String × String) → String → Option String
  | [], _ => none
  | (k, v) :: rest, key => if k = key then some v else lookupStr rest key

/-- Model of `RegisteredCluster.Status` restricted to the fields the controller reads
and writes. Lists that the controller only assigns are plain lists. -/
structure RegClusterStatus where
  conditions : List Condition
  allocatable : List (String × String)
  capacity : List (String × String)
  clusterClaims : List (String × String)
  version : String
  apiURL : String
  clusterID : String
  importCommandRef : String
deriving DecidableEq

/-- The intent object `RegisteredCluster`: identity, spec fields, deletion
marker, finalizer set and status. -/
structure RegisteredCluster where
  name : String
  ns : String
  uid : String
  location : String
  clusterName : String
  deletionTimestamp : Option Nat
  finalizers : List String
  status : RegClusterStatus
deriving DecidableEq

/-- Model of `ManagedCluster.Status` restricted to the fields projected into the
RegisteredCluster status. `Option` distinguishes a Go nil slice/map (the
copy guards test `!= nil`) from an empty non-nil one. The version struct is
represented by its single string field; its Go zero value is the empty
string. -/
structure ManagedClusterStatus where
  conditions : Option (List Condition)
  allocatable : Option (List (String × String))
  capacity : Option (List (String × String))
  clusterClaims : Option (List (String × String))
  version : String
deriving DecidableEq

/-- The derived hub-scoped `ManagedCluster` object. `clientConfigs` is the
list of `Spec.ManagedClusterClientConfigs` URLs (the guard in the source
tests both nil-ness and positive length, so a plain list is faithful). -/
structure ManagedCluster where
  name : String
  generateName : String
  labels : List (String × String)
  annotations : List (String × String)
  hubAcceptsClient : Bool
  clientConfigs : List String
  status : ManagedClusterStatus
deriving DecidableEq

/-- The zero value `clusterapiv1.ManagedCluster{}` that `getManagedCluster`
returns on its non-single-match paths. -/
def emptyManagedCluster : ManagedCluster :=
  { name := ""
    generateName := ""
    labels := []
    annotations := []
    hubAcceptsClient := false
    clientConfigs := []
    status := { conditions := none, allocatable := none, capacity := none,
                clusterClaims := none, version := "" } }

/-- Source `getRegisteredClusterLabels`: the correlation label set placed on (and
used to list) derived ManagedClusters. -/
def getRegisteredClusterLabels (regCluster : RegisteredCluster) (clusterName : String) :
    List (String × String) :=
  [ (RegisteredClusterNamelabel, regCluster.name),
    (RegisteredClusterNamespacelabel, regCluster.ns),
    (RegisteredClusterUidLabel, regCluster.uid),
    (ManagedClusterSetlabel, ManagedClusterSetNameForWorkspace clusterName) ]

/-- Whether a ManagedCluster carries every label of the given selector, as
`client.MatchingLabels` requires. -/
def matchesLabels (mc : ManagedCluster) (sel : List (String × String)) : Bool :=
  sel.all fun kv => decide (lookupStr mc.labels kv.1 = some kv.2)

/-- The hub-side `List` call with a `MatchingLabels` selector over a hub
state holding the existing ManagedClusters. -/
def listByLabels (hub : List ManagedCluster) (sel : List (String × String)) :
    List ManagedCluster :=
  hub.filter (fun mc => matchesLabels mc sel)

/-- Whether the `DeletionTimestamp` of the regCluster is non-nil. -/
def isDeleting (regCluster : RegisteredCluster) : Bool :=
  regCluster.deletionTimestamp.isSome

/-- Source `getManagedCluster` over the injected result of the label-selector List
call: exactly one item is returned as-is; otherwise a deleting
RegisteredCluster gets the zero ManagedCluster and no error, and a
non-deleting one gets the zero ManagedCluster and the
`correct managedcluster not found` error. -/
def getManagedCluster (regCluster : RegisteredCluster)
    (listRes : Except K8sErr (List ManagedCluster)) :
    ManagedCluster × Option K8sErr :=
  match listRes with
  | Except.error e => (emptyManagedCluster, some e)
  | Except.ok items =>
    match items with
    | [m] => (m, none)
    | _ =>
      if isDeleting regCluster then (emptyManagedCluster, none)
      else (emptyManagedCluster, some (K8sErr.other "correct managedcluster not found"))

/-- Source `getManagedCluster` run against a hub state: the List call is the
label-selector query over the ManagedClusters of the hub. -/
def getManagedClusterOnHub (hub : List ManagedCluster)
    (regCluster : RegisteredCluster) (clusterName : String) :
    ManagedCluster × Option K8sErr :=
  getManagedCluster regCluster
    (Except.ok (listByLabels hub (getRegisteredClusterLabels regCluster clusterName)))

/-- The ManagedCluster object `createManagedCluster` builds when none
matches: generate-name `registered-cluster-`, the correlation labels, the
service-name and cluster-name annotations, and `HubAcceptsClient: true`. -/
def newManagedCluster (labels : List (String × String)) (clusterName : String) :
    ManagedCluster :=
  { name := ""
    generateName := "registered-cluster-"
    labels := labels
    annotations := [ ("open-cluster-management/service-name", "compute"),
                     (ClusterNameAnnotationKey, clusterName) ]
    hubAcceptsClient := true
    clientConfigs := []
    status := { conditions := none, allocatable := none, capacity := none,
                clusterClaims := none, version := "" } }

/-- Source `createManagedCluster` over injected call results: lists by the
correlation labels; when fewer than one is found, issues the Create and
returns the object it requested; otherwise it is a no-op. The first
component is the error result, the second the object whose creation was
requested (if any). -/
def createManagedCluster (regCluster : RegisteredCluster) (clusterName : String)
    (listRes : Except K8sErr (List ManagedCluster)) (createRes : Option K8sErr) :
    Option K8sErr × Option ManagedCluster :=
  match listRes with
  | Except.error e => (some e, none)
  | Except.ok items =>
    if items.length < 1 then
      match createRes with
      | some e => (some e, some (newManagedCluster (getRegisteredClusterLabels regCluster clusterName) clusterName))
      | none => (none, some (newManagedCluster (getRegisteredClusterLabels regCluster clusterName) clusterName))
    else (none, none)

/-- One run of `createManagedCluster` against a hub state in which the List
and Create calls succeed: the hub state after the call. -/
def createStep (hub : List ManagedCluster) (regCluster : RegisteredCluster)
    (clusterName : String) : List ManagedCluster :=
  match createManagedCluster regCluster clusterName
      (Except.ok (listByLabels hub (getRegisteredClusterLabels regCluster clusterName))) none with
  | (_, some mc) => hub ++ [mc]
  | (_, none) => hub

/-- Modelled from the spec: `helpers.GetConditionStatus` (pkg/helpers is not
among the provided sources) looks up the condition of the given type in a
condition list and returns its status when present. -/
def GetConditionStatus (conds : List Condition) (condType : String) : Option String :=
  (conds.find? fun c => c.type_ = condType).map (fun c => c.status)

/-- Modelled from the spec: `helpers.MergeStatusConditions` (pkg/helpers is
not among the provided sources) merges downstream conditions into an existing
condition list, deduplicated by type — a condition whose type already exists
is replaced in place, a new type is appended, and existing conditions not
reported downstream are preserved. -/
def MergeStatusConditions (old : List Condition) (reported : List Condition) :
    List Condition :=
  reported.foldl
    (fun acc c =>
      if acc.any (fun o => o.type_ = c.type_) then
        acc.map (fun o => if o.type_ = c.type_ then c else o)
      else acc ++ [c])
    old

/-- Source `updateRegisteredClusterStatus` as the pure status projection it performs
before issuing the merge patch: each downstream field is copied only when its
guard in the source passes (conditions merged, not replaced; slices/maps
copied when non-nil; the version struct when non-zero; the API URL from the
first client config when one exists; the clusterID from the label when the
label is present). -/
def updateRegisteredClusterStatus (reg : RegClusterStatus) (mc : ManagedCluster) :
    RegClusterStatus :=
  let s1 := match mc.status.conditions with
    | some cs => { reg with conditions := MergeStatusConditions reg.conditions cs }
    | none => reg
  let s2 := match mc.status.allocatable with
    | some a => { s1 with allocatable := a }
    | none => s1
  let s3 := match mc.status.capacity with
    | some c => { s2 with capacity := c }
    | none => s2
  let s4 := match mc.status.clusterClaims with
    | some cc => { s3 with clusterClaims := cc }
    | none => s3
  let s5 := if mc.status.version ≠ "" then { s4 with version := mc.status.version } else s4
  let s6 := match mc.clientConfigs with
    | u :: _ => { s5 with apiURL := u }
    | [] => s5
  match lookupStr mc.labels "clusterID" with
  | some cid => { s6 with clusterID := cid }
  | none => s6

/-- Source `registeredClusterPredicate`, its CreateFunc: every creation triggers. -/
def registeredClusterPredicateCreate (_e : RegisteredCluster) : Bool := true

/-- Source `registeredClusterPredicate`, its UpdateFunc on two RegisteredCluster
objects (the type assertions succeed): it returns true exactly when
`equality.Semantic.DeepEqual(old.Status, new.Status)` holds, i.e. when the
status sub-object did NOT change. -/
def registeredClusterPredicateUpdate (oldObj newObj : RegisteredCluster) : Bool :=
  if oldObj.status = newObj.status then true else false

/-- An action `syncKcpSyncer` issues against the hub: applying the kcp-syncer
ManifestWork template into the namespace of the ManagedCluster. -/
structure ApplySyncerWork where
  workName : String
  workNamespace : String
deriving DecidableEq

/-- Source `syncKcpSyncer` over injected call results: gated on the Joined condition
read from the status conditions of the REGISTERED CLUSTER. Inside the gate it
parses the compute host URL, applies the manifest-work template, and re-reads
the ManifestWork (whose applied-condition inspection only logs). Outside the
gate it does nothing and returns no error. Returns the list of issued apply
actions and the error result. -/
def syncKcpSyncer (regCluster : RegisteredCluster) (managedCluster : ManagedCluster)
    (parseRes : Option K8sErr) (applyRes : Option K8sErr)
    (workGet : Except K8sErr Unit) :
    List ApplySyncerWork × Option K8sErr :=
  if GetConditionStatus regCluster.status.conditions ManagedClusterConditionJoined
      = some ConditionTrue then
    match parseRes with
    | some e => ([], some e)
    | none =>
      let act : ApplySyncerWork := ⟨GetSyncerName regCluster.name, managedCluster.name⟩
      match applyRes with
      | some e => ([act], some e)
      | none =>
        match workGet with
        | Except.error e => ([act], some e)
        | Except.ok _ => ([act], none)
  else ([], none)

/-- A delete request issued by the deletion orchestrator. -/
inductive DelAction where
  | deleteManifestWork : String → String → DelAction
  | deleteManagedCluster : String → DelAction
deriving DecidableEq

deriving instance DecidableEq for Except

/-- The injected results of the hub calls `processRegclusterDeletion` makes:
the Get and Delete of the kcp-syncer ManifestWork and of the ManagedCluster. -/
structure DeletionEnv where
  mwGet : Except K8sErr Unit
  mwDelete : Option K8sErr
  mcGet : Except K8sErr Unit
  mcDelete : Option K8sErr
deriving DecidableEq

/-- Source `processRegclusterDeletion`: stage one gets the kcp-syncer ManifestWork
named `GetSyncerName(regCluster.Name)` in the namespace of the ManagedCluster — if
found it deletes it and requeues after 1s, a non-NotFound get error is
returned as-is, NotFound advances; stage two does the same for the
ManagedCluster with a 5s requeue. Only when both stages observe NotFound does
it return the zero result with no error. Returns the issued delete requests,
the ctrl result and the error. -/
def processRegclusterDeletion (env : DeletionEnv)
    (regClusterName : String) (managedClusterName : String) :
    List DelAction × CtrlResult × Option K8sErr :=
  match env.mwGet with
  | Except.ok _ =>
    let act := DelAction.deleteManifestWork (GetSyncerName regClusterName) managedClusterName
    match env.mwDelete with
    | some e => ([act], noRequeue, some e)
    | none => ([act], ⟨true, 1⟩, none)
  | Except.error K8sErr.notFound =>
    match env.mcGet with
    | Except.ok _ =>
      let act := DelAction.deleteManagedCluster managedClusterName
      match env.mcDelete with
      | some e => ([act], noRequeue, some e)
      | none => ([act], ⟨true, 5⟩, none)
    | Except.error K8sErr.notFound => ([], noRequeue, none)
    | Except.error e => ([], noRequeue, some e)
  | Except.error e => ([], noRequeue, some e)

/-- A teardown world: which of the two derived hub objects still exist. -/
structure TearWorld where
  mwPresent : Bool
  mcPresent : Bool
deriving DecidableEq

/-- The deletion-call results a teardown world induces when deletes succeed:
a Get finds the object exactly when it is present. -/
def tearEnv (w : TearWorld) : DeletionEnv :=
  { mwGet := if w.mwPresent then Except.ok () else Except.error K8sErr.notFound
    mwDelete := none
    mcGet := if w.mcPresent then Except.ok () else Except.error K8sErr.notFound
    mcDelete := none }

/-- Effect of an issued delete on the teardown world once the asynchronous
deletion has completed (the next reconcile observes the object absent). -/
def applyDelete (w : TearWorld) : DelAction → TearWorld
  | DelAction.deleteManifestWork _ _ => { w with mwPresent := false }
  | DelAction.deleteManagedCluster _ => { w with mcPresent := false }

/-- One deletion reconcile against a teardown world: run the orchestrator and
let its issued deletes complete before the next observation. -/
def tearStep (w : TearWorld) (regClusterName managedClusterName : String) :
    TearWorld × List DelAction × CtrlResult × Option K8sErr :=
  let (acts, res, e) := processRegclusterDeletion (tearEnv w) regClusterName managedClusterName
  (acts.foldl applyDelete w, acts, res, e)

/-- The action trace of `n` successive deletion reconciles from a teardown
world. -/
def tearTrace (w : TearWorld) (regClusterName managedClusterName : String) :
    Nat → List (List DelAction × CtrlResult × Option K8sErr)
  | 0 => []
  | Nat.succ n =>
    let (w2, acts, res, e) := tearStep w regClusterName managedClusterName
    (acts, res, e) :: tearTrace w2 regClusterName managedClusterName n

/-- An effect issued against the workspace (compute) cluster by the
service-account synchronisation step. -/
inductive WsEffect where
  | getServiceAccount : WsEffect
  | createServiceAccount : WsEffect
  | applyWorkspaceFiles : WsEffect
  | sleepSeconds : Nat → WsEffect
  | getSecret : String → WsEffect
deriving DecidableEq

/-- A workspace secret restricted to what `getKcpSyncerSAToken` inspects: its
type and its `token` data entry (absent key modelled as `none`). -/
structure WsSecret where
  stype : String
  token : Option String
deriving DecidableEq

/-- Secret type `corev1.SecretTypeServiceAccountToken`. -/
def SecretTypeServiceAccountToken : String := "kubernetes.io/service-account-token"

/-- Source `getKcpSyncerSAToken`, its loop over the secret
references: names not starting with the service-account name are skipped
without a read; a read error, a wrong secret type, a missing token key or an
empty token all continue; the first non-empty token is returned. Returns the
read effects issued and the token or the `failed to get the token` error. -/
def tokenLoop (read : String → Except K8sErr WsSecret) :
    List String → List WsEffect × Except K8sErr String
  | [] =>
    ([], Except.error (K8sErr.other
      "failed to get the token of workspace sa kcp-syncer-sa in namespace default"))
  | n :: rest =>
    if GetSyncerServiceAccountName.isPrefixOf n then
      let eff := WsEffect.getSecret n
      let keepScanning : List WsEffect × Except K8sErr String :=
        let (es, r) := tokenLoop read rest
        (eff :: es, r)
      match read n with
      | Except.error _ => keepScanning
      | Except.ok s =>
        if s.stype = SecretTypeServiceAccountToken then
          match s.token with
          | some t => if t.length = 0 then keepScanning else ([eff], Except.ok t)
          | none => keepScanning
        else keepScanning
    else tokenLoop read rest

/-- Source `syncServiceAccount` in the current generation of the controller file:
get the service account in the location workspace, create it when NotFound
(the cluster-role apply and the sleeps around it are commented out in this
generation), then read the token through `getKcpSyncerSAToken`. `saGet` and
`saCreate` carry the secret-reference names of the returned service account.
Returns the workspace effects issued and the token or error. -/
def syncServiceAccount (saGet : Except K8sErr (List String))
    (saCreate : Except K8sErr (List String))
    (read : String → Except K8sErr WsSecret) :
    List WsEffect × Except K8sErr String :=
  match saGet with
  | Except.ok secretNames =>
    let (es, r) := tokenLoop read secretNames
    (WsEffect.getServiceAccount :: es, r)
  | Except.error K8sErr.notFound =>
    match saCreate with
    | Except.error ce =>
      ([WsEffect.getServiceAccount, WsEffect.createServiceAccount], Except.error ce)
    | Except.ok secretNames =>
      let (es, r) := tokenLoop read secretNames
      (WsEffect.getServiceAccount :: WsEffect.createServiceAccount :: es, r)
  | Except.error e => ([WsEffect.getServiceAccount], Except.error e)

/-- Source `syncServiceAccount` in the earlier generation of the controller file
(src/unnamed/part_001): after the get-or-create of the service account it
unconditionally blocks the worker with `time.Sleep(10 * time.Second)`, issues
the cluster-role/binding apply, sleeps another 10 seconds, checks the apply
error and then reads the token. -/
def syncServiceAccountGen0 (saGet : Except K8sErr (List String))
    (saCreate : Except K8sErr (List String)) (applyRes : Option K8sErr)
    (read : String → Except K8sErr WsSecret) :
    List WsEffect × Except K8sErr String :=
  let afterSA : Option (List String × List WsEffect) :=
    match saGet with
    | Except.ok secretNames => some (secretNames, [WsEffect.getServiceAccount])
    | Except.error K8sErr.notFound =>
      match saCreate with
      | Except.error _ => none
      | Except.ok secretNames =>
        some (secretNames, [WsEffect.getServiceAccount, WsEffect.createServiceAccount])
    | Except.error _ => none
  match afterSA with
  | none =>
    match saGet with
    | Except.error K8sErr.notFound =>
      ([WsEffect.getServiceAccount, WsEffect.createServiceAccount],
        Except.error (match saCreate with | Except.error ce => ce | Except.ok _ => K8sErr.notFound))
    | Except.error e => ([WsEffect.getServiceAccount], Except.error e)
    | Except.ok _ => ([WsEffect.getServiceAccount], Except.error K8sErr.notFound)
  | some (secretNames, es0) =>
    let mid := [WsEffect.sleepSeconds 10, WsEffect.applyWorkspaceFiles,
                WsEffect.sleepSeconds 10]
    match applyRes with
    | some e => (es0 ++ mid, Except.error e)
    | none =>
      let (es, r) := tokenLoop read secretNames
      (es0 ++ mid ++ es, r)

/-- The injected results of every external call one `Reconcile` invocation
can make, in source order: the Get of the RegisteredCluster, the HubInstance
lookup, the finalizer-adding Update, the List/Create pair inside
`createManagedCluster`, the List inside `getManagedCluster`, the deletion
orchestrator calls, the finalizer-removing Update, the import-secret
Get/apply/status-patch inside `updateImportCommand`, the service-account
sync, the URL-parse/apply/ManifestWork-Get inside `syncKcpSyncer` and the
final status patch. `clusterName` is `req.ClusterName`. -/
structure ReconcileEnv where
  clusterName : String
  getRC : Except K8sErr RegisteredCluster
  hub : Option K8sErr
  addFinalizerUpdate : Option K8sErr
  createList : Except K8sErr (List ManagedCluster)
  createResult : Option K8sErr
  getList : Except K8sErr (List ManagedCluster)
  delEnv : DeletionEnv
  removeFinalizerUpdate : Option K8sErr
  importGet : Except K8sErr Unit
  importApply : Option K8sErr
  importPatch : Option K8sErr
  saGet : Except K8sErr (List String)
  saCreate : Except K8sErr (List String)
  saRead : String → Except K8sErr WsSecret
  kcpParse : Option K8sErr
  kcpApply : Option K8sErr
  kcpWorkGet : Except K8sErr Unit
  statusPatch : Option K8sErr

/-- Model of `controllerutil.AddFinalizer`: append the finalizer when missing. -/
def addFinalizer (fs : List String) (f : String) : List String :=
  if fs.contains f then fs else fs ++ [f]

/-- Model of `controllerutil.RemoveFinalizer`: drop every occurrence. -/
def removeFinalizer (fs : List String) (f : String) : List String :=
  fs.filter (fun g => g ≠ f)

/-- What one `Reconcile` invocation produced: the ctrl result, the returned
error, and the finalizer set of the RegisteredCluster as persisted on the
compute cluster when the invocation ends (a failed Update leaves the
previously persisted set). -/
structure ReconcileOut where
  result : CtrlResult
  err : Option K8sErr
  finalizers : List String
deriving DecidableEq

/-- Source `updateImportCommand` reduced to its error result: a failed import-secret
Get is returned (stack-wrapped) on both branches of its inner check, then the
apply and the status patch short-circuit in order. -/
def updateImportCommand (importGet : Except K8sErr Unit)
    (applyRes patchRes : Option K8sErr) : Option K8sErr :=
  match importGet with
  | Except.error e => some e
  | Except.ok _ =>
    match applyRes with
    | some e => some e
    | none => patchRes

/-- The part of `Reconcile` after the ManagedCluster lookup: either the
deletion branch — the orchestrator runs and the finalizer is cleared only
when it returns neither an error nor a requeue — or the forward sequence:
the import-command step (a NotFound from it yields a 1-second requeue with
nil error), the SyncTarget no-op, the service-account sync, the kcp-syncer
sync and the status projection. `fs` is the finalizer set persisted by the
finalizer-adding Update. -/
def reconcileTail (env : ReconcileEnv) (rc : RegisteredCluster)
    (mc : ManagedCluster) (fs : List String) : ReconcileOut :=
  if isDeleting rc then
    let (_, res, perr) := processRegclusterDeletion env.delEnv rc.name mc.name
    if perr.isSome || res.requeue then ⟨res, perr, fs⟩
    else
      match env.removeFinalizerUpdate with
      | some e => ⟨noRequeue, some e, fs⟩
      | none => ⟨noRequeue, none, removeFinalizer fs RegisteredClusterFinalizer⟩
  else
    match updateImportCommand env.importGet env.importApply env.importPatch with
    | some e =>
      if isNotFoundErr e then ⟨⟨true, 1⟩, none, fs⟩
      else ⟨noRequeue, some e, fs⟩
    | none =>
      match (syncServiceAccount env.saGet env.saCreate env.saRead).2 with
      | Except.error e => ⟨noRequeue, some e, fs⟩
      | Except.ok _ =>
        match (syncKcpSyncer rc mc env.kcpParse env.kcpApply env.kcpWorkGet).2 with
        | some e => ⟨noRequeue, some e, fs⟩
        | none =>
          match env.statusPatch with
          | some e => ⟨noRequeue, some e, fs⟩
          | none => ⟨noRequeue, none, fs⟩

/-- Source `Reconcile`: load the RegisteredCluster (NotFound is terminal success),
resolve the HubInstance, add and persist the finalizer, create the
ManagedCluster when not deleting, look it up by correlation labels
(tolerating NotFound-class errors), then run `reconcileTail`. -/
def Reconcile (env : ReconcileEnv) : ReconcileOut :=
  match env.getRC with
  | Except.error K8sErr.notFound => ⟨noRequeue, none, []⟩
  | Except.error e => ⟨noRequeue, some e, []⟩
  | Except.ok rc =>
    match env.hub with
    | some e => ⟨noRequeue, some e, rc.finalizers⟩
    | none =>
      match env.addFinalizerUpdate with
      | some e => ⟨noRequeue, some e, rc.finalizers⟩
      | none =>
        let fs := addFinalizer rc.finalizers RegisteredClusterFinalizer
        let afterCreate : Option K8sErr :=
          if isDeleting rc then none
          else (createManagedCluster rc env.clusterName env.createList env.createResult).1
        match afterCreate with
        | some e => ⟨noRequeue, some e, fs⟩
        | none =>
          let (mc, gerr) := getManagedCluster rc env.getList
          match gerr with
          | some e =>
            if isNotFoundErr e then
              reconcileTail env rc mc fs
            else ⟨noRequeue, some e, fs⟩
          | none => reconcileTail env rc mc fs

/-! Sample objects used by counterexamples and witnesses. -/

/-- A zero RegisteredCluster status. -/
def sampleStatus : RegClusterStatus :=
  { conditions := [], allocatable := [], capacity := [], clusterClaims := [],
    version := "", apiURL := "", clusterID := "", importCommandRef := "" }

/-- A live (non-deleting) RegisteredCluster. -/
def sampleRC : RegisteredCluster :=
  { name := "cluster-1", ns := "team-a", uid := "uid-1",
    location := "root:team-a", clusterName := "display-1",
    deletionTimestamp := none, finalizers := [], status := sampleStatus }

/-- The same RegisteredCluster marked for deletion. -/
def sampleRCDel : RegisteredCluster :=
  { sampleRC with deletionTimestamp := some 1 }

/-- A hub ManagedCluster carrying the full correlation label set of
`sampleRCDel` for workspace `ws-1`. -/
def sampleMCa : ManagedCluster :=
  { emptyManagedCluster with
      name := "mc-a", labels := getRegisteredClusterLabels sampleRCDel "ws-1" }

/-- A second hub ManagedCluster with the same correlation labels. -/
def sampleMCb : ManagedCluster :=
  { emptyManagedCluster with
      name := "mc-b", labels := getRegisteredClusterLabels sampleRCDel "ws-1" }

/-- The object freshly created by `createManagedCluster` matches the very
label selector it was listed with. -/
theorem newManagedCluster_matches (rc : RegisteredCluster) (cn : String) :
    matchesLabels
      (newManagedCluster (getRegisteredClusterLabels rc cn) cn)
      (getRegisteredClusterLabels rc cn) = true := by
  simp [matchesLabels, newManagedCluster, getRegisteredClusterLabels, lookupStr,
    RegisteredClusterNamelabel, RegisteredClusterNamespacelabel,
    RegisteredClusterUidLabel, ManagedClusterSetlabel,
    ManagedClusterSetNameForWorkspace]

/-- C3 counterexample: an update whose status sub-object did NOT change is
accepted by the predicate, so the predicate does not accept an update if and
only if the status changed — the source returns true exactly on an unchanged
status. -/
theorem registeredClusterPredicate_claim_false :
    ¬ (registeredClusterPredicateUpdate sampleRC sampleRC = true ↔
        sampleRC.status ≠ sampleRC.status) := by
  decide

/-- C3 (amended): the event filter for the primary RegisteredCluster object
accepts every creation event, and accepts an update event if and only if the
status sub-object is UNCHANGED between the old and new object (updates whose
status changed — the own writes of the status projector — are ignored). -/
theorem registeredClusterPredicate_spec (oldObj newObj : RegisteredCluster) :
    registeredClusterPredicateCreate newObj = true ∧
    (registeredClusterPredicateUpdate oldObj newObj = true ↔
      oldObj.status = newObj.status) := by
  refine ⟨rfl, ?_⟩
  unfold registeredClusterPredicateUpdate
  by_cases h : oldObj.status = newObj.status <;> simp [h]

/-- C2 counterexample: with two ManagedClusters matching the correlation
labels of a RegisteredCluster that is being deleted, `getManagedCluster`
returns the zero object and NO error — the multi-match is hidden, not
surfaced. -/
theorem getManagedCluster_multimatch_hidden_when_deleting :
    (listByLabels [sampleMCa, sampleMCb]
        (getRegisteredClusterLabels sampleRCDel "ws-1")).length = 2 ∧
    isDeleting sampleRCDel = true ∧
    getManagedClusterOnHub [sampleMCa, sampleMCb] sampleRCDel "ws-1" =
      (emptyManagedCluster, none) := by
  decide

/-- C2 (amended): `getManagedCluster` lists by the correlation labels;
exactly one match is returned with no error; when the RegisteredCluster is
being deleted, ANY other match count (zero or more than one) yields the zero
object and no error; when it is not being deleted, any other match count
(zero or more than one) yields the `correct managedcluster not found`
error. -/
theorem getManagedCluster_cases (hub : List ManagedCluster)
    (rc : RegisteredCluster) (cn : String) :
    (∀ m, listByLabels hub (getRegisteredClusterLabels rc cn) = [m] →
      getManagedClusterOnHub hub rc cn = (m, none)) ∧
    ((listByLabels hub (getRegisteredClusterLabels rc cn)).length ≠ 1 →
      isDeleting rc = true →
      getManagedClusterOnHub hub rc cn = (emptyManagedCluster, none)) ∧
    ((listByLabels hub (getRegisteredClusterLabels rc cn)).length ≠ 1 →
      isDeleting rc = false →
      getManagedClusterOnHub hub rc cn =
        (emptyManagedCluster,
          some (K8sErr.other "correct managedcluster not found"))) := by
  unfold getManagedClusterOnHub getManagedCluster
  cases hl : listByLabels hub (getRegisteredClusterLabels rc cn) with
  | nil =>
    refine ⟨?_, ?_, ?_⟩ <;> intro h <;> simp_all
  | cons a t =>
    cases t with
    | nil => refine ⟨?_, ?_, ?_⟩ <;> intro h <;> simp_all
    | cons b t2 => refine ⟨?_, ?_, ?_⟩ <;> intro h <;> simp_all

/-- C2 witness: at a hub with no matching ManagedCluster and a non-deleting
RegisteredCluster, the amended theorem yields the not-found error. -/
theorem getManagedCluster_cases_witness :
    getManagedClusterOnHub [] sampleRC "ws-1" =
      (emptyManagedCluster,
        some (K8sErr.other "correct managedcluster not found")) :=
  (getManagedCluster_cases [] sampleRC "ws-1").2.2 (by decide) (by decide)

/-- C10: whenever `createManagedCluster` creates a ManagedCluster, the
created object has generate-name `registered-cluster-`, accepts the hub, and
carries the correlation name/namespace labels of the RegisteredCluster plus
the cluster-set label derived from the workspace name. -/
theorem createManagedCluster_created_shape (hub : List ManagedCluster)
    (rc : RegisteredCluster) (cn : String) :
    createStep hub rc cn = hub ∨
    (createStep hub rc cn =
        hub ++ [newManagedCluster (getRegisteredClusterLabels rc cn) cn] ∧
      (newManagedCluster (getRegisteredClusterLabels rc cn) cn).generateName =
        "registered-cluster-" ∧
      (newManagedCluster (getRegisteredClusterLabels rc cn) cn).hubAcceptsClient = true ∧
      lookupStr (newManagedCluster (getRegisteredClusterLabels rc cn) cn).labels
        RegisteredClusterNamelabel = some rc.name ∧
      lookupStr (newManagedCluster (getRegisteredClusterLabels rc cn) cn).labels
        RegisteredClusterNamespacelabel = some rc.ns ∧
      lookupStr (newManagedCluster (getRegisteredClusterLabels rc cn) cn).labels
        ManagedClusterSetlabel = some (ManagedClusterSetNameForWorkspace cn)) := by
  unfold createStep createManagedCluster
  cases hl : listByLabels hub (getRegisteredClusterLabels rc cn) with
  | cons a t => left ; simp
  | nil =>
    right
    refine ⟨by simp, rfl, rfl, ?_, ?_, ?_⟩ <;>
      simp [newManagedCluster, getRegisteredClusterLabels, lookupStr,
        RegisteredClusterNamelabel, RegisteredClusterNamespacelabel,
        RegisteredClusterUidLabel, ManagedClusterSetlabel,
        ManagedClusterSetNameForWorkspace]

/-- C6: `createManagedCluster` is a no-op whenever at least one
ManagedCluster matches the correlation labels, creates exactly one when none
does, and running it twice in a row with no external state change leaves the
hub exactly as after the first run. -/
theorem createManagedCluster_idempotent (hub : List ManagedCluster)
    (rc : RegisteredCluster) (cn : String) :
    (listByLabels hub (getRegisteredClusterLabels rc cn) ≠ [] →
      createStep hub rc cn = hub) ∧
    (listByLabels hub (getRegisteredClusterLabels rc cn) = [] →
      createStep hub rc cn =
        hub ++ [newManagedCluster (getRegisteredClusterLabels rc cn) cn]) ∧
    createStep (createStep hub rc cn) rc cn = createStep hub rc cn := by
  have hnoop : ∀ h2 : List ManagedCluster,
      listByLabels h2 (getRegisteredClusterLabels rc cn) ≠ [] →
      createStep h2 rc cn = h2 := by
    intro h2 hne
    unfold createStep createManagedCluster
    cases hl : listByLabels h2 (getRegisteredClusterLabels rc cn) with
    | nil => exact absurd hl hne
    | cons a t => simp
  have hcreate : listByLabels hub (getRegisteredClusterLabels rc cn) = [] →
      createStep hub rc cn =
        hub ++ [newManagedCluster (getRegisteredClusterLabels rc cn) cn] := by
    intro hl
    unfold createStep createManagedCluster
    rw [hl]
    simp
  refine ⟨hnoop hub, hcreate, ?_⟩
  cases hl : listByLabels hub (getRegisteredClusterLabels rc cn) with
  | cons a t =>
    rw [hnoop hub (by rw [hl] ; simp), hnoop hub (by rw [hl] ; simp)]
  | nil =>
    rw [hcreate hl]
    apply hnoop
    unfold listByLabels
    rw [List.filter_append]
    simp [newManagedCluster_matches rc cn]

/-- C6 witness: on an empty hub the first run creates the object and the
second run is a no-op. -/
theorem createManagedCluster_idempotent_witness :
    createStep ([] : List ManagedCluster) sampleRC "ws-1" =
        [newManagedCluster (getRegisteredClusterLabels sampleRC "ws-1") "ws-1"] ∧
    createStep (createStep ([] : List ManagedCluster) sampleRC "ws-1") sampleRC "ws-1" =
      createStep ([] : List ManagedCluster) sampleRC "ws-1" :=
  ⟨(createManagedCluster_idempotent [] sampleRC "ws-1").2.1 (by decide),
   (createManagedCluster_idempotent [] sampleRC "ws-1").2.2⟩

/-- A condition of type A with status True. -/
def condA : Condition := ⟨"A", "True", "", ""⟩

/-- A condition of type B with status True. -/
def condB : Condition := ⟨"B", "True", "", ""⟩

/-- A RegisteredCluster status already holding condition A. -/
def statusWithA : RegClusterStatus := { sampleStatus with conditions := [condA] }

/-- A ManagedCluster reporting only condition B. -/
def mcReportingB : ManagedCluster :=
  { emptyManagedCluster with
      status := { conditions := some [condB], allocatable := none,
                  capacity := none, clusterClaims := none, version := "" } }
/-- Shape of the status projection: every field of the result, computed from
the corresponding guard of the source. -/
theorem updateRegisteredClusterStatus_eq (reg : RegClusterStatus)
    (mc : ManagedCluster) :
    updateRegisteredClusterStatus reg mc =
      { conditions :=
          match mc.status.conditions with
          | some cs => MergeStatusConditions reg.conditions cs
          | none => reg.conditions
        allocatable := (mc.status.allocatable).getD reg.allocatable
        capacity := (mc.status.capacity).getD reg.capacity
        clusterClaims := (mc.status.clusterClaims).getD reg.clusterClaims
        version := if mc.status.version = "" then reg.version else mc.status.version
        apiURL := match mc.clientConfigs with | u :: _ => u | [] => reg.apiURL
        clusterID := (lookupStr mc.labels "clusterID").getD reg.clusterID
        importCommandRef := reg.importCommandRef } := by
  obtain ⟨mname, mgen, mlabels, manns, mhac, mcfg, mconds, mall, mcap, mcc, mver⟩ := mc
  cases mconds <;> cases mall <;> cases mcap <;> cases mcc <;>
    rcases mcfg with _ | ⟨u0, us0⟩ <;>
    by_cases hv : mver = "" <;>
    rcases hcl : lookupStr mlabels "clusterID" with _ | cid0 <;>
    simp [updateRegisteredClusterStatus, hv, hcl]

/-- C8: `updateRegisteredClusterStatus` copies each downstream field into the
RegisteredCluster status only when the source field is non-empty (is not the
Go nil slice/map, the zero version struct, the empty client-config list, or a
missing clusterID label), merges conditions instead of replacing them, and on
an intent status holding condition A with a downstream report of condition B
the merged result contains both. -/
theorem updateRegisteredClusterStatus_copy_and_merge (reg : RegClusterStatus)
    (mc : ManagedCluster) :
    (mc.status.conditions = none →
      (updateRegisteredClusterStatus reg mc).conditions = reg.conditions) ∧
    (∀ cs, mc.status.conditions = some cs →
      (updateRegisteredClusterStatus reg mc).conditions =
        MergeStatusConditions reg.conditions cs) ∧
    (mc.status.allocatable = none →
      (updateRegisteredClusterStatus reg mc).allocatable = reg.allocatable) ∧
    (∀ a, mc.status.allocatable = some a →
      (updateRegisteredClusterStatus reg mc).allocatable = a) ∧
    (mc.status.capacity = none →
      (updateRegisteredClusterStatus reg mc).capacity = reg.capacity) ∧
    (∀ c, mc.status.capacity = some c →
      (updateRegisteredClusterStatus reg mc).capacity = c) ∧
    (mc.status.clusterClaims = none →
      (updateRegisteredClusterStatus reg mc).clusterClaims = reg.clusterClaims) ∧
    (∀ cc, mc.status.clusterClaims = some cc →
      (updateRegisteredClusterStatus reg mc).clusterClaims = cc) ∧
    (mc.status.version = "" →
      (updateRegisteredClusterStatus reg mc).version = reg.version) ∧
    (mc.status.version ≠ "" →
      (updateRegisteredClusterStatus reg mc).version = mc.status.version) ∧
    (mc.clientConfigs = [] →
      (updateRegisteredClusterStatus reg mc).apiURL = reg.apiURL) ∧
    (∀ u us, mc.clientConfigs = u :: us →
      (updateRegisteredClusterStatus reg mc).apiURL = u) ∧
    (lookupStr mc.labels "clusterID" = none →
      (updateRegisteredClusterStatus reg mc).clusterID = reg.clusterID) ∧
    (∀ cid, lookupStr mc.labels "clusterID" = some cid →
      (updateRegisteredClusterStatus reg mc).clusterID = cid) ∧
    condA ∈ (updateRegisteredClusterStatus statusWithA mcReportingB).conditions ∧
    condB ∈ (updateRegisteredClusterStatus statusWithA mcReportingB).conditions := by
  rw [updateRegisteredClusterStatus_eq]
  refine ⟨?_, ?_, ?_, ?_, ?_, ?_, ?_, ?_, ?_, ?_, ?_, ?_, ?_, ?_, ?_, ?_⟩
  · intro h ; simp [h]
  · intro cs h ; simp [h]
  · intro h ; simp [h]
  · intro a h ; simp [h]
  · intro h ; simp [h]
  · intro c h ; simp [h]
  · intro h ; simp [h]
  · intro cc h ; simp [h]
  · intro h ; simp [h]
  · intro h ; simp [h]
  · intro h ; simp [h]
  · intro u us h ; simp [h]
  · intro h ; simp [h]
  · intro cid h ; simp [h]
  · decide
  · decide

/-- C8 witness: the merge at the concrete A/B input, obtained from the claim
merge clause of the claim theorem. -/
theorem updateRegisteredClusterStatus_copy_and_merge_witness :
    (updateRegisteredClusterStatus statusWithA mcReportingB).conditions =
      MergeStatusConditions statusWithA.conditions [condB] :=
  (updateRegisteredClusterStatus_copy_and_merge statusWithA mcReportingB).2.1
    [condB] rfl

/-- The Joined condition with status True. -/
def joinedTrueCond : Condition :=
  ⟨ManagedClusterConditionJoined, ConditionTrue, "", ""⟩

/-- A RegisteredCluster whose own status carries Joined=True. -/
def rcJoined : RegisteredCluster :=
  { sampleRC with status := { sampleStatus with conditions := [joinedTrueCond] } }

/-- C4 counterexample: `syncKcpSyncer` issues the ManifestWork apply for a
RegisteredCluster whose status carries Joined=True even though the
ManagedCluster it was given has reported no conditions at all — the gate
reads the status of the RegisteredCluster, not of the ManagedCluster. -/
theorem syncKcpSyncer_applies_without_managedcluster_joined :
    emptyManagedCluster.status.conditions = none ∧
    (syncKcpSyncer rcJoined emptyManagedCluster none none (Except.ok ())).1 =
      [⟨GetSyncerName rcJoined.name, emptyManagedCluster.name⟩] := by
  decide

/-- C4 (amended): `syncKcpSyncer` applies the Syncer Deployment Descriptor
only when the status conditions of the REGISTERED CLUSTER (the merged copy of the
downstream report) carry Joined=True; when that condition is absent or not
True the call is a no-op returning no error. -/
theorem syncKcpSyncer_gated_on_regcluster_joined (rc : RegisteredCluster)
    (mc : ManagedCluster) (parseRes applyRes : Option K8sErr)
    (workGet : Except K8sErr Unit) :
    (GetConditionStatus rc.status.conditions ManagedClusterConditionJoined ≠
        some ConditionTrue →
      syncKcpSyncer rc mc parseRes applyRes workGet = ([], none)) ∧
    ((syncKcpSyncer rc mc parseRes applyRes workGet).1 ≠ [] →
      GetConditionStatus rc.status.conditions ManagedClusterConditionJoined =
        some ConditionTrue) ∧
    (GetConditionStatus rc.status.conditions ManagedClusterConditionJoined =
        some ConditionTrue → parseRes = none →
      (syncKcpSyncer rc mc parseRes applyRes workGet).1 =
        [⟨GetSyncerName rc.name, mc.name⟩]) := by
  by_cases hg : GetConditionStatus rc.status.conditions
      ManagedClusterConditionJoined = some ConditionTrue
  · refine ⟨fun h => absurd hg h, fun _ => hg, fun _ hp => ?_⟩
    subst hp
    cases applyRes with
    | some e => simp [syncKcpSyncer, hg]
    | none =>
      cases workGet with
      | error e => simp [syncKcpSyncer, hg]
      | ok u => simp [syncKcpSyncer, hg]
  · refine ⟨fun _ => by simp [syncKcpSyncer, hg], ?_, fun h => absurd h hg⟩
    intro hne
    exact absurd (by simp [syncKcpSyncer, hg]) hne

/-- C4 witness: the amended gate at the concrete joined RegisteredCluster. -/
theorem syncKcpSyncer_gated_on_regcluster_joined_witness :
    (syncKcpSyncer rcJoined emptyManagedCluster none none (Except.ok ())).1 =
      [⟨GetSyncerName rcJoined.name, emptyManagedCluster.name⟩] :=
  (syncKcpSyncer_gated_on_regcluster_joined rcJoined emptyManagedCluster none
    none (Except.ok ())).2.2 (by decide) rfl

/-- C5: teardown ordering of `processRegclusterDeletion` — a found
ManifestWork is deleted with a 1-second requeue before the ManagedCluster is
ever touched; the ManagedCluster delete is only ever issued in an invocation
that observed the ManifestWork absent; a found ManagedCluster is deleted with
a 5-second requeue; non-NotFound get errors are returned as-is; both stages
absent yields the clean zero result; and from a fully materialized graph the
three successive reconciles issue exactly
descriptor-delete, then ManagedCluster-delete, then nothing. -/
theorem processRegclusterDeletion_ordering (env : DeletionEnv) (rn mn : String) :
    (env.mwGet = Except.ok () → env.mwDelete = none →
      processRegclusterDeletion env rn mn =
        ([DelAction.deleteManifestWork (GetSyncerName rn) mn], ⟨true, 1⟩, none)) ∧
    (∀ s, env.mwGet = Except.error (K8sErr.other s) →
      processRegclusterDeletion env rn mn =
        ([], noRequeue, some (K8sErr.other s))) ∧
    (env.mwGet = Except.error K8sErr.notFound → env.mcGet = Except.ok () →
      env.mcDelete = none →
      processRegclusterDeletion env rn mn =
        ([DelAction.deleteManagedCluster mn], ⟨true, 5⟩, none)) ∧
    (∀ s, env.mwGet = Except.error K8sErr.notFound →
      env.mcGet = Except.error (K8sErr.other s) →
      processRegclusterDeletion env rn mn =
        ([], noRequeue, some (K8sErr.other s))) ∧
    (env.mwGet = Except.error K8sErr.notFound →
      env.mcGet = Except.error K8sErr.notFound →
      processRegclusterDeletion env rn mn = ([], noRequeue, none)) ∧
    (DelAction.deleteManagedCluster mn ∈ (processRegclusterDeletion env rn mn).1 →
      env.mwGet = Except.error K8sErr.notFound) ∧
    tearTrace ⟨true, true⟩ rn mn 3 =
      [([DelAction.deleteManifestWork (GetSyncerName rn) mn], ⟨true, 1⟩, none),
       ([DelAction.deleteManagedCluster mn], ⟨true, 5⟩, none),
       ([], noRequeue, none)] := by
  obtain ⟨mwG, mwD, mcG, mcD⟩ := env
  refine ⟨?_, ?_, ?_, ?_, ?_, ?_, ?_⟩
  · intro h1 h2
    subst h1 ; subst h2
    simp [processRegclusterDeletion]
  · intro s h1
    subst h1
    simp [processRegclusterDeletion]
  · intro h1 h2 h3
    subst h1 ; subst h2 ; subst h3
    simp [processRegclusterDeletion]
  · intro s h1 h2
    subst h1 ; subst h2
    simp [processRegclusterDeletion]
  · intro h1 h2
    subst h1 ; subst h2
    simp [processRegclusterDeletion]
  · intro hmem
    cases mwG with
    | ok u =>
      cases mwD <;> simp [processRegclusterDeletion] at hmem
    | error e =>
      cases e with
      | notFound => rfl
      | other s =>
        simp [processRegclusterDeletion] at hmem
  · rfl

/-- C5 witness: the ManifestWork stage at a concrete environment in which the
descriptor is present and the ManagedCluster is already gone. -/
theorem processRegclusterDeletion_ordering_witness :
    processRegclusterDeletion
        ⟨Except.ok (), none, Except.error K8sErr.notFound, none⟩ "c1" "mc1" =
      ([DelAction.deleteManifestWork (GetSyncerName "c1") "mc1"], ⟨true, 1⟩, none) :=
  (processRegclusterDeletion_ordering
    ⟨Except.ok (), none, Except.error K8sErr.notFound, none⟩ "c1" "mc1").1 rfl rfl

/-- The token-reading loop only ever issues secret reads: no sleep effect. -/
theorem tokenLoop_no_sleep (read : String → Except K8sErr WsSecret) (n : Nat) :
    ∀ l : List String, WsEffect.sleepSeconds n ∉ (tokenLoop read l).1 := by
  intro l
  induction l with
  | nil => simp [tokenLoop]
  | cons h t ih =>
    unfold tokenLoop
    by_cases hp : GetSyncerServiceAccountName.isPrefixOf h
    · simp only [hp, if_true]
      cases hr : read h with
      | error e => simpa using ih
      | ok s =>
        by_cases ht : s.stype = SecretTypeServiceAccountToken
        · simp only [ht, if_true]
          cases s.token with
          | none => simpa using ih
          | some tok =>
            by_cases hz : tok.length = 0
            · simpa [hz] using ih
            · simp [hz]
        · simpa [ht] using ih
    · simpa [hp] using ih

/-- C9: in the current generation of the controller file `syncServiceAccount`
never issues an in-process sleep for any call results — waits surface only as
returned results — while the earlier generation (src/unnamed/part_001)
blocks the worker with a 10-second sleep on its service-account path. -/
theorem syncServiceAccount_sleep_generations :
    (∀ (saGet saCreate : Except K8sErr (List String))
        (read : String → Except K8sErr WsSecret) (n : Nat),
      WsEffect.sleepSeconds n ∉ (syncServiceAccount saGet saCreate read).1) ∧
    WsEffect.sleepSeconds 10 ∈
      (syncServiceAccountGen0 (Except.ok []) (Except.ok []) none
        (fun _ => Except.error K8sErr.notFound)).1 := by
  constructor
  · intro saGet saCreate read n
    cases saGet with
    | ok names =>
      simpa [syncServiceAccount] using tokenLoop_no_sleep read n names
    | error e =>
      cases e with
      | notFound =>
        cases saCreate with
        | error ce => simp [syncServiceAccount]
        | ok names =>
          simpa [syncServiceAccount] using tokenLoop_no_sleep read n names
      | other s => simp [syncServiceAccount]
  · decide

/-- Lemma: `AddFinalizer` guarantees the finalizer is present. -/
theorem mem_addFinalizer (fs : List String) (f : String) : f ∈ addFinalizer fs f := by
  unfold addFinalizer
  by_cases h : f ∈ fs <;> simp [h]

/-- Lemma: `RemoveFinalizer` guarantees the finalizer is gone. -/
theorem not_mem_removeFinalizer (fs : List String) (f : String) :
    f ∉ removeFinalizer fs f := by
  simp [removeFinalizer]

/-- On the deletion branch, starting from a persisted finalizer set holding
the finalizer, the finalizer is cleared only when both orchestrator stages
observed their object absent, and stays present while either derived object
is still found. -/
theorem reconcileTail_deleting_finalizer (env : ReconcileEnv)
    (rc : RegisteredCluster) (mc : ManagedCluster) (fs : List String)
    (h2 : isDeleting rc = true) (hf : RegisteredClusterFinalizer ∈ fs) :
    (RegisteredClusterFinalizer ∉ (reconcileTail env rc mc fs).finalizers →
      env.delEnv.mwGet = Except.error K8sErr.notFound ∧
      env.delEnv.mcGet = Except.error K8sErr.notFound ∧
      ∀ rn mn, processRegclusterDeletion env.delEnv rn mn =
        ([], noRequeue, none)) ∧
    ((env.delEnv.mwGet = Except.ok () ∨ env.delEnv.mcGet = Except.ok ()) →
      RegisteredClusterFinalizer ∈ (reconcileTail env rc mc fs).finalizers) := by
  rcases henv : env.delEnv with ⟨mwG, mwD, mcG, mcD⟩
  cases mwG with
  | ok u =>
    cases u
    cases mwD <;>
      simp [reconcileTail, h2, henv, processRegclusterDeletion, noRequeue, hf]
  | error e =>
    cases e with
    | other s =>
      simp [reconcileTail, h2, henv, processRegclusterDeletion, noRequeue, hf]
    | notFound =>
      cases mcG with
      | ok u =>
        cases u
        cases mcD <;>
          simp [reconcileTail, h2, henv, processRegclusterDeletion, noRequeue, hf]
      | error e2 =>
        cases e2 with
        | other s =>
          simp [reconcileTail, h2, henv, processRegclusterDeletion, noRequeue, hf]
        | notFound =>
          cases hrem : env.removeFinalizerUpdate with
          | some e3 =>
            simp [reconcileTail, h2, henv, hrem, processRegclusterDeletion,
              noRequeue, hf]
          | none =>
            refine ⟨fun _ => ⟨rfl, rfl, fun rn mn => by
              simp [processRegclusterDeletion, henv, noRequeue]⟩, ?_⟩
            rintro (h | h) <;> exact absurd h (by simp)

/-- C1: for a reconcile of a RegisteredCluster marked for deletion (with the
finalizer-adding update persisted), the finalizer is absent from the
persisted object after the reconcile only when the deletion orchestrator
observed both the ManifestWork and the ManagedCluster absent — i.e. returned
neither an error nor a requeue — and while either derived object is still
found the finalizer stays present. -/
theorem finalizer_cleared_only_after_full_teardown (env : ReconcileEnv)
    (rc : RegisteredCluster) (h1 : env.getRC = Except.ok rc)
    (h2 : isDeleting rc = true) (h3 : env.hub = none)
    (h4 : env.addFinalizerUpdate = none) :
    (RegisteredClusterFinalizer ∉ (Reconcile env).finalizers →
      env.delEnv.mwGet = Except.error K8sErr.notFound ∧
      env.delEnv.mcGet = Except.error K8sErr.notFound ∧
      ∀ rn mn, processRegclusterDeletion env.delEnv rn mn =
        ([], noRequeue, none)) ∧
    ((env.delEnv.mwGet = Except.ok () ∨ env.delEnv.mcGet = Except.ok ()) →
      RegisteredClusterFinalizer ∈ (Reconcile env).finalizers) := by
  have hf : RegisteredClusterFinalizer ∈
      addFinalizer rc.finalizers RegisteredClusterFinalizer :=
    mem_addFinalizer rc.finalizers RegisteredClusterFinalizer
  have hred : Reconcile env =
      (let (mc, gerr) := getManagedCluster rc env.getList
      match gerr with
      | some e =>
        if isNotFoundErr e then
          reconcileTail env rc mc (addFinalizer rc.finalizers RegisteredClusterFinalizer)
        else ⟨noRequeue, some e, addFinalizer rc.finalizers RegisteredClusterFinalizer⟩
      | none =>
        reconcileTail env rc mc (addFinalizer rc.finalizers RegisteredClusterFinalizer)) := by
    simp [Reconcile, h1, h3, h4, h2]
  rcases hgl : getManagedCluster rc env.getList with ⟨mc, gerr⟩
  rw [hgl] at hred
  cases gerr with
  | none =>
    rw [hred]
    exact reconcileTail_deleting_finalizer env rc mc _ h2 hf
  | some e =>
    cases e with
    | notFound =>
      rw [hred]
      simp only [isNotFoundErr, if_true]
      exact reconcileTail_deleting_finalizer env rc mc _ h2 hf
    | other s =>
      rw [hred]
      simp only [isNotFoundErr]
      exact ⟨fun hno => absurd hf (by simpa using hno), fun _ => by simpa using hf⟩

/-- A reconcile environment for a deleting RegisteredCluster whose
ManifestWork is still present on the hub. -/
def envDelWitness : ReconcileEnv :=
  { clusterName := "ws-1", getRC := Except.ok sampleRCDel, hub := none,
    addFinalizerUpdate := none, createList := Except.ok [], createResult := none,
    getList := Except.ok [], delEnv := ⟨Except.ok (), none, Except.ok (), none⟩,
    removeFinalizerUpdate := none, importGet := Except.ok (), importApply := none,
    importPatch := none, saGet := Except.ok [], saCreate := Except.ok [],
    saRead := fun _ => Except.error K8sErr.notFound, kcpParse := none,
    kcpApply := none, kcpWorkGet := Except.ok (), statusPatch := none }

/-- C1 witness: while the ManifestWork is still found, the reconcile of the
deleting RegisteredCluster keeps the finalizer present. -/
theorem finalizer_cleared_only_after_full_teardown_witness :
    RegisteredClusterFinalizer ∈ (Reconcile envDelWitness).finalizers :=
  (finalizer_cleared_only_after_full_teardown envDelWitness sampleRCDel rfl
    (by decide) rfl rfl).2 (Or.inl rfl)

/-- C7: for a reconcile of a non-deleting RegisteredCluster on the happy path
up to the import step (hub resolved, finalizer persisted, create and lookup
succeeding with exactly one ManagedCluster) whose import secret Get reports
NotFound, the reconcile ends with a requeue after 1 second and a nil
error. -/
theorem reconcile_requeues_when_import_secret_absent (env : ReconcileEnv)
    (rc : RegisteredCluster) (mc : ManagedCluster)
    (h1 : env.getRC = Except.ok rc) (h2 : isDeleting rc = false)
    (h3 : env.hub = none) (h4 : env.addFinalizerUpdate = none)
    (h5 : (createManagedCluster rc env.clusterName env.createList
        env.createResult).1 = none)
    (h6 : env.getList = Except.ok [mc])
    (h7 : env.importGet = Except.error K8sErr.notFound) :
    (Reconcile env).result = ⟨true, 1⟩ ∧ (Reconcile env).err = none := by
  have hred : Reconcile env = reconcileTail env rc mc
      (addFinalizer rc.finalizers RegisteredClusterFinalizer) := by
    simp [Reconcile, h1, h3, h4, h2, h5, h6, getManagedCluster]
  rw [hred]
  simp [reconcileTail, h2, updateImportCommand, h7, isNotFoundErr]

/-- A reconcile environment for a live RegisteredCluster whose import secret
does not yet exist. -/
def envImportWitness : ReconcileEnv :=
  { clusterName := "ws-1", getRC := Except.ok sampleRC, hub := none,
    addFinalizerUpdate := none, createList := Except.ok [sampleMCa],
    createResult := none, getList := Except.ok [sampleMCa],
    delEnv := ⟨Except.error K8sErr.notFound, none,
      Except.error K8sErr.notFound, none⟩,
    removeFinalizerUpdate := none, importGet := Except.error K8sErr.notFound,
    importApply := none, importPatch := none, saGet := Except.ok [],
    saCreate := Except.ok [],
    saRead := fun _ => Except.error K8sErr.notFound, kcpParse := none,
    kcpApply := none, kcpWorkGet := Except.ok (), statusPatch := none }

/-- C7 witness: the 1-second requeue with nil error at the concrete
environment. -/
theorem reconcile_requeues_when_import_secret_absent_witness :
    (Reconcile envImportWitness).result = ⟨true, 1⟩ ∧
    (Reconcile envImportWitness).err = none :=
  reconcile_requeues_when_import_secret_absent envImportWitness sampleRC
    sampleMCa rfl (by decide) rfl rfl (by decide) rfl rfl
